import Mathlib

/-!
Verification development for `rodio-test` (`src/main.rs`): a minimal audio playback
session (`Sink`) built on the rodio/tokio collaborators.

Shallow embedding conventions:
* `std::time::Duration` is modelled as `Nat` (a count of nanoseconds); Rust `Duration`
  arithmetic is unsigned and the source guards the one subtraction explicitly.
* `f32` volume arithmetic is modelled exactly over `ℚ` (the operations involved,
  `clamp` and small-integer powers at the values of interest, are exact).
* Fallible collaborator calls that the source `unwrap`s are parameters of the
  embedded operation, and a `none` result of the operation models a panic.
* A spawned tokio completion-watcher task is modelled as a `Watcher` record in the
  session's `watchers` list (the set of alive tasks).  Dropping a tokio `JoinHandle`
  detaches the task (it keeps running); only `JoinHandle::abort` stops it, which the
  model renders by removing the watcher from the alive list.  `Sink.fire` is the
  observable step of an alive watcher whose queued source has drained.
-/

namespace RodioTest

/-- Modelled from the spec: the rodio `Player` device-sink collaborator (spec section 6).
It reports a current playback position (`get_pos`), holds the pending play queue of
appended sources (identified here by numeric ids), a pause flag, and an amplitude.
Its `clear` drops all queued/playing audio. -/
structure Player where
  pos : Nat
  queue : List Nat
  paused : Bool
  volume : ℚ
deriving DecidableEq, Repr

/-- Modelled from the spec: rodio `Player::clear` drops all queued/playing audio and
pauses; the reported playback position of the dropped audio is reset to zero (spec
section 8: after `clear_queue()` the position is approximately zero). -/
def Player.clear (p : Player) : Player :=
  { p with queue := [], pos := 0, paused := true }

/-- The open output stream (`rodio::MixerDeviceSink`), reduced to the one attribute the
source consults: its configured sample rate. -/
structure MixerDeviceSink where
  sampleRate : Nat
deriving DecidableEq, Repr

/-- One spawned completion-watcher task: the id of the queued source whose completion
signal it polls, and the track duration it will add to `duration_played` on firing. -/
structure Watcher where
  id : Nat
  trackDuration : Nat
deriving DecidableEq, Repr

/-- The decoder collaborator's successful outcome for a file: the source's sample rate
and its total duration when determinable up front (`Source::total_duration`). -/
structure DecodedSource where
  sampleRate : Nat
  totalDuration : Option Nat
deriving DecidableEq, Repr

/-- `QueryTrackResult` from the source. -/
inductive QueryTrackResult where
  | Queued
  | RecreateStreamRequired
deriving DecidableEq, Repr

/-- The `Sink` struct from the source, with the model's bookkeeping for the async
parts: `watchers` is the list of alive watcher tasks (the source only stores the most
recent `JoinHandle`; dropped handles detach, so superseded tasks stay alive),
`next_id` generates fresh per-queued-source ids, and `finished` is the log of
broadcasts sent on the `track_finished` watch channel. -/
structure Sink where
  player : Option Player
  mixer : Option MixerDeviceSink
  sender : Option Unit
  track_handle : Option Nat
  duration_played : Nat
  watchers : List Watcher
  next_id : Nat
  finished : List Nat
deriving DecidableEq, Repr

/-- `Sink::new`. -/
def Sink.new : Sink :=
  { player := none, mixer := none, sender := none, track_handle := none,
    duration_played := 0, watchers := [], next_id := 0, finished := [] }

/-- `Sink::position`. -/
def Sink.position (s : Sink) : Nat :=
  let position := (s.player.map Player.pos).getD 0
  let duration_played := s.duration_played
  if position < duration_played then 0
  else position - duration_played

/-- `Sink::play`. -/
def Sink.play (s : Sink) : Sink :=
  { s with player := s.player.map (fun p => { p with paused := false }) }

/-- `Sink::pause`. -/
def Sink.pause (s : Sink) : Sink :=
  { s with player := s.player.map (fun p => { p with paused := true }) }

/-- `Sink::seek`.  `seekOk` is whether the player's `try_seek` succeeds (collaborator
outcome); the source `unwrap`s the result, so a failed seek panics: result `none`. -/
def Sink.seek (s : Sink) (duration : Nat) (seekOk : Bool) : Option Sink :=
  match s.player with
  | none => some s
  | some p =>
      if seekOk then some { s with player := some { p with pos := duration } }
      else none

/-- `Sink::clear_queue`. -/
def Sink.clear_queue (s : Sink) : Sink :=
  { s with duration_played := 0, player := s.player.map Player.clear }

/-- `Sink::clear`: `clear_queue`, drop player/mixer/sender, reset the duration
counter, then `take` and `abort` the stored watcher handle (the aborted task leaves
the alive list; tasks whose handles were dropped earlier are unaffected). -/
def Sink.clear (s : Sink) : Sink :=
  let s1 := s.clear_queue
  let s2 := { s1 with player := none, mixer := none, sender := none, duration_played := 0 }
  match s2.track_handle with
  | some id =>
      { s2 with track_handle := none,
                watchers := s2.watchers.filter (fun w => !(w.id == id)) }
  | none => s2

/-- `Sink::is_empty`. -/
def Sink.is_empty (s : Sink) : Bool :=
  s.player.isNone

/-- Rust `f32::clamp` (no NaN in the modelled inputs), exactly over `ℚ`. -/
def rustClamp (v lo hi : ℚ) : ℚ :=
  if v < lo then lo else if hi < v then hi else v

/-- The free function `set_volume`: clamp the input to `[0, 1]`, cube it
(`powi(3)`), and apply it to the player. -/
def set_volume (sink : Player) (volume : ℚ) : Player :=
  { sink with volume := rustClamp volume 0 1 ^ 3 }

/-- `Sink::sync_volume`. -/
def Sink.sync_volume (s : Sink) : Sink :=
  { s with player := s.player.map (fun p => set_volume p 1) }

/-- `Sink::query_track`.  `decoded` is the decoder collaborator's outcome for the file
at `track_path` (`none`: the file cannot be opened or holds no recognizable audio
stream; the source `unwrap`s both steps, so this panics).  `deviceOk` is whether
`open_default_stream` finds a working output device (its failure is also `unwrap`ed).
A `none` result models a panic. -/
def Sink.query_track (s : Sink) (decoded : Option DecodedSource) (deviceOk : Bool) :
    Option (QueryTrackResult × Sink) :=
  match decoded with
  | none => none
  | some source =>
    let sample_rate := source.sampleRate
    let same_sample_rate :=
      (s.mixer.map (fun mixer => mixer.sampleRate == sample_rate)).getD true
    if !same_sample_rate then
      some (QueryTrackResult.RecreateStreamRequired, s)
    else
      let needs_stream := s.mixer.isNone || s.player.isNone
      let stream_opened : Option Sink :=
        if needs_stream then
          if deviceOk then
            some { s with
              mixer := some { sampleRate := sample_rate },
              player := some (set_volume
                { pos := 0, queue := [], paused := false, volume := 1 } 1),
              sender := some () }
          else none
        else some s
      match stream_opened with
      | none => none
      | some s1 =>
        match s1.sender with
        | none => none
        | some _ =>
          let track_duration := source.totalDuration.getD 0
          let w : Watcher := { id := s1.next_id, trackDuration := track_duration }
          some (QueryTrackResult.Queued,
            { s1 with
              player := s1.player.map
                (fun p => { p with queue := p.queue ++ [s1.next_id] }),
              watchers := s1.watchers ++ [w],
              track_handle := some s1.next_id,
              next_id := s1.next_id + 1 })

/-- The observable step of the alive completion-watcher task for source `id`: the
spawned loop sees `signal.try_recv().is_ok()` (its queued source drained), adds the
recorded track duration to `duration_played`, broadcasts on `track_finished`, and the
task terminates.  A watcher that is not alive (aborted by `clear`, or already fired)
takes no step: the state is unchanged, so no duration update and no broadcast. -/
def Sink.fire (s : Sink) (id : Nat) : Sink :=
  match s.watchers.find? (fun w => w.id == id) with
  | none => s
  | some w =>
      { s with duration_played := s.duration_played + w.trackDuration,
               finished := s.finished ++ [id],
               watchers := s.watchers.filter (fun w2 => !(w2.id == id)) }

/-- The pairing invariant of spec section 3: player (sink handle), mixer (output
stream) and sender (queue input) are present or absent together. -/
def Sink.paired (s : Sink) : Prop :=
  s.player.isSome = s.mixer.isSome ∧ s.player.isSome = s.sender.isSome

/-- A decoded source at 44100 Hz with known total duration 10. -/
def srcA : DecodedSource := { sampleRate := 44100, totalDuration := some 10 }

/-- A decoded source at 44100 Hz with known total duration 5. -/
def srcB : DecodedSource := { sampleRate := 44100, totalDuration := some 5 }

/-- A decoded source at 48000 Hz, a different sample rate from `srcA`. -/
def srcC : DecodedSource := { sampleRate := 48000, totalDuration := some 7 }

/-- A decoded source at 44100 Hz whose total duration is not determinable up front. -/
def srcU : DecodedSource := { sampleRate := 44100, totalDuration := none }

/-- The session after queuing `srcA` from a fresh session. -/
def sinkA : Sink :=
  ((Sink.new.query_track (some srcA) true).getD (QueryTrackResult.Queued, Sink.new)).2

/-- The session after queuing `srcA` then `srcB` from a fresh session. -/
def sinkAB : Sink :=
  ((sinkA.query_track (some srcB) true).getD (QueryTrackResult.Queued, Sink.new)).2

/-- The session after queuing `srcU` (unknown duration) from a fresh session. -/
def sinkU : Sink :=
  ((Sink.new.query_track (some srcU) true).getD (QueryTrackResult.Queued, Sink.new)).2

/-- C1: `position()` never returns a negative duration: with an active player it is the
live stream position minus `duration_played`, with zero returned instead whenever that
difference would be negative, and it is zero whenever no player is active. -/
theorem position_nonneg_clamped (s : Sink) :
    (0 : ℤ) ≤ (s.position : ℤ) ∧
    (s.player = none → s.position = 0) ∧
    (∀ p, s.player = some p →
      (s.position : ℤ) = max 0 ((p.pos : ℤ) - (s.duration_played : ℤ))) := by
  refine ⟨Int.ofNat_nonneg _, ?_, ?_⟩
  · intro h
    simp only [Sink.position, h, Option.map_none', Option.getD_none]
    split <;> omega
  · intro p hp
    simp only [Sink.position, hp, Option.map_some', Option.getD_some]
    split <;> omega

/-- C1 witness: on the fresh session there is no player and `position()` is zero. -/
theorem position_nonneg_clamped_witness : Sink.new.position = 0 :=
  (position_nonneg_clamped Sink.new).2.1 rfl

/-- C2: with an active stream whose configured sample rate differs from the new
source's, `query_track` returns `RecreateStreamRequired` and the resulting session
state is exactly the input state (no field is mutated). -/
theorem query_track_mismatch_unchanged (s : Sink) (m : MixerDeviceSink)
    (src : DecodedSource) (deviceOk : Bool) (hm : s.mixer = some m)
    (hne : m.sampleRate ≠ src.sampleRate) :
    s.query_track (some src) deviceOk =
      some (QueryTrackResult.RecreateStreamRequired, s) := by
  simp [Sink.query_track, hm, hne]

/-- C2 witness: queuing the 48000 Hz source onto the 44100 Hz session returns
`RecreateStreamRequired` with the state unchanged. -/
theorem query_track_mismatch_unchanged_witness :
    sinkA.query_track (some srcC) true =
      some (QueryTrackResult.RecreateStreamRequired, sinkA) :=
  query_track_mismatch_unchanged sinkA { sampleRate := 44100 } srcC true
    (by decide) (by decide)

/-- C4 counterexample: on a file that cannot be opened or decoded, the call from the
fresh session panics (the source `unwrap`s `File::open` and `Decoder::try_from`,
modelled by the `none` result); it does not return a `DecodeError` value. -/
theorem query_track_decode_panic_cex : Sink.new.query_track none true = none := rfl

/-- C4 amended: for every session state, `query_track` on a file that cannot be opened
or contains no recognizable audio stream panics (`unwrap`), rather than failing with a
`DecodeError` result; no error value and no new state is returned to the caller. -/
theorem query_track_decode_panic (s : Sink) (deviceOk : Bool) :
    s.query_track none deviceOk = none := rfl

/-- C5 counterexample: with an active stream, a seek the sink rejects panics (the
source `unwrap`s `try_seek`, modelled by the `none` result) instead of signalling a
recoverable `SeekFailed` error. -/
theorem seek_rejected_panic_cex : sinkA.seek 3 false = none := by decide

/-- C5 amended: `seek` is a no-op when no stream is active; when a stream is active
and the sink rejects the seek, the call panics (`unwrap` on `try_seek`) rather than
signalling a recoverable `SeekFailed` error to the caller. -/
theorem seek_noop_or_panic (s : Sink) (d : Nat) (ok : Bool) :
    (s.player = none → s.seek d ok = some s) ∧
    (∀ p, s.player = some p → ok = false → s.seek d ok = none) := by
  constructor
  · intro h
    simp [Sink.seek, h]
  · intro p hp hok
    simp [Sink.seek, hp, hok]

/-- C5 witness: a seek on the fresh (streamless) session is a no-op, and a rejected
seek on the active session panics. -/
theorem seek_noop_or_panic_witness :
    Sink.new.seek 3 true = some Sink.new ∧ sinkA.seek 7 false = none :=
  ⟨(seek_noop_or_panic Sink.new 3 true).1 rfl,
   (seek_noop_or_panic sinkA 7 false).2
     { pos := 0, queue := [0], paused := false, volume := 1 } (by decide) rfl⟩

/-- C9: the amplitude `set_volume` applies is the input clamped to `[0, 1]` and then
cubed; in particular `-1/2` and `0` both apply amplitude `0`, and `2` and `1` both
apply amplitude `1`. -/
theorem set_volume_curve :
    (∀ (p : Player) (v : ℚ), (set_volume p v).volume = max 0 (min v 1) ^ 3) ∧
    (∀ p : Player,
      (set_volume p (-(1/2))).volume = 0 ∧ (set_volume p 0).volume = 0 ∧
      (set_volume p 2).volume = 1 ∧ (set_volume p 1).volume = 1) := by
  have hclamp : ∀ v : ℚ, rustClamp v 0 1 = max 0 (min v 1) := by
    intro v
    unfold rustClamp
    rcases lt_or_le v 0 with h | h
    · rw [if_pos h, max_eq_left (le_trans (min_le_left _ _) h.le)]
    · rw [if_neg (not_lt.2 h)]
      rcases lt_or_le 1 v with h2 | h2
      · rw [if_pos h2, min_eq_right h2.le, max_eq_right zero_le_one]
      · rw [if_neg (not_lt.2 h2), min_eq_left h2, max_eq_right h]
  constructor
  · intro p v
    simp [set_volume, hclamp]
  · intro p
    refine ⟨?_, ?_, ?_, ?_⟩ <;> simp [set_volume] <;> norm_num [rustClamp]


/-- Characterization of a `Queued` result of `query_track`: the session either reused
or freshly created its stream triple (state `s1`, which keeps the caller's watcher
list, id counter, stored handle and duration counter), and the Queued result appends
the new source to the play queue and its watcher to the alive list. -/
theorem query_track_queued_shape (s : Sink) (src : DecodedSource) (dev : Bool)
    (s' : Sink)
    (hq : s.query_track (some src) dev = some (QueryTrackResult.Queued, s')) :
    ∃ s1 : Sink, s1.watchers = s.watchers ∧ s1.next_id = s.next_id ∧
      s1.track_handle = s.track_handle ∧ s1.duration_played = s.duration_played ∧
      s1.player.isSome = true ∧ s1.mixer.isSome = true ∧ s1.sender.isSome = true ∧
      s' = { s1 with
        player := s1.player.map (fun p => { p with queue := p.queue ++ [s1.next_id] }),
        watchers := s1.watchers ++
          [{ id := s1.next_id, trackDuration := src.totalDuration.getD 0 }],
        track_handle := some s1.next_id,
        next_id := s1.next_id + 1 } := by
  unfold Sink.query_track at hq
  simp only [] at hq
  split at hq
  · exact absurd hq (by simp)
  · split at hq
    · simp at hq
    · next s1 heq =>
      split at hq
      · simp at hq
      · next val heq2 =>
        simp only [Option.some.injEq, Prod.mk.injEq, true_and] at hq
        subst hq
        refine ⟨s1, ?_⟩
        split at heq
        · split at heq
          · simp only [Option.some.injEq] at heq
            subst heq
            exact ⟨rfl, rfl, rfl, rfl, rfl, rfl, rfl, rfl⟩
          · simp at heq
        · next hns =>
          simp only [Option.some.injEq] at heq
          subst heq
          simp only [Bool.or_eq_true, not_or] at hns
          obtain ⟨hm, hp⟩ := hns
          refine ⟨rfl, rfl, rfl, rfl, ?_, ?_, ?_, rfl⟩
          · cases hx : s.player
            · exact absurd (by rw [hx]; rfl) hp
            · rfl
          · cases hx : s.mixer
            · exact absurd (by rw [hx]; rfl) hm
            · rfl
          · rw [heq2]; rfl


/-- `Option.map` preserves presence. -/
theorem isSome_map (o : Option Player) (f : Player → Player) :
    (o.map f).isSome = o.isSome := by cases o <;> rfl

/-- Any `clear` result has no player and a zero duration counter. -/
theorem clear_player_none (t : Sink) :
    (t.clear).player = none ∧ (t.clear).duration_played = 0 := by
  unfold Sink.clear Sink.clear_queue
  cases t.track_handle <;> simp

/-- A `RecreateStreamRequired` result of `query_track` returns the input state. -/
theorem query_track_recreate_shape (s : Sink) (src : DecodedSource) (dev : Bool)
    (s' : Sink)
    (hq : s.query_track (some src) dev =
      some (QueryTrackResult.RecreateStreamRequired, s')) : s' = s := by
  unfold Sink.query_track at hq
  simp only [] at hq
  split at hq
  · simp only [Option.some.injEq, Prod.mk.injEq, true_and] at hq
    exact hq.symm
  · split at hq
    · simp at hq
    · split at hq
      · simp at hq
      · simp at hq

/-- C6: after `clear()` the session is empty: `is_empty()` is true, `position()` is
zero, and the cumulative duration counter is zero; `clear` is total, and on the fresh
already-empty session it is the identity, so clearing when empty is safe. -/
theorem clear_empties (s : Sink) :
    (s.clear).is_empty = true ∧ (s.clear).position = 0 ∧
    (s.clear).duration_played = 0 ∧ Sink.new.clear = Sink.new := by
  obtain ⟨h1, h2⟩ := clear_player_none s
  refine ⟨?_, ?_, h2, rfl⟩
  · simp [Sink.is_empty, h1]
  · simp [Sink.position, h1, h2]

/-- C8: `clear_queue()` resets the cumulative duration counter, so `position()`
afterwards is zero, and drains the player's pending queue, while the mixer and sender
fields are untouched and the player stays present, so `is_empty()` is unchanged
(false when a stream was active); it is total, hence safe on an empty session. -/
theorem clear_queue_resets (s : Sink) :
    (s.clear_queue).duration_played = 0 ∧
    (s.clear_queue).position = 0 ∧
    (s.clear_queue).mixer = s.mixer ∧
    (s.clear_queue).sender = s.sender ∧
    (s.clear_queue).is_empty = s.is_empty ∧
    (∀ p, s.player = some p →
      (s.clear_queue).player = some (Player.clear p) ∧ (Player.clear p).queue = []) := by
  refine ⟨rfl, ?_, rfl, rfl, ?_, ?_⟩
  · cases hp : s.player <;>
      simp [Sink.clear_queue, Sink.position, hp, Player.clear]
  · cases hp : s.player <;> simp [Sink.clear_queue, Sink.is_empty, hp]
  · intro p hp
    exact ⟨by simp [Sink.clear_queue, hp], rfl⟩

/-- C8 witness: on the one-track session, `clear_queue` drains the player queue and
`position()` afterwards is zero. -/
theorem clear_queue_resets_witness :
    (sinkA.clear_queue).player =
      some (Player.clear { pos := 0, queue := [0], paused := false, volume := 1 }) ∧
    (sinkA.clear_queue).position = 0 :=
  ⟨((clear_queue_resets sinkA).2.2.2.2.2
      { pos := 0, queue := [0], paused := false, volume := 1 } (by decide)).1,
   (clear_queue_resets sinkA).2.1⟩

/-- C7: every session operation preserves the pairing invariant that the player (sink
handle), the mixer (output stream) and the sender (queue input) are present or absent
together: the fresh session satisfies it, and `clear`, `clear_queue`, `play`, `pause`,
`sync_volume`, every non-panicking `seek` and every non-panicking `query_track`
preserve it (`position` and `is_empty` read the state without mutating it). -/
theorem operations_preserve_paired :
    Sink.new.paired ∧
    ∀ s : Sink, s.paired →
      (s.clear).paired ∧ (s.clear_queue).paired ∧ (s.play).paired ∧
      (s.pause).paired ∧ (s.sync_volume).paired ∧
      (∀ d ok s', s.seek d ok = some s' → s'.paired) ∧
      (∀ dec dev r s', s.query_track dec dev = some (r, s') → s'.paired) := by
  constructor
  · exact ⟨rfl, rfl⟩
  intro s hs
  obtain ⟨hs1, hs2⟩ := hs
  refine ⟨?_, ?_, ?_, ?_, ?_, ?_, ?_⟩
  · unfold Sink.clear Sink.clear_queue
    cases s.track_handle <;> exact ⟨rfl, rfl⟩
  · exact ⟨(isSome_map _ _).trans hs1, (isSome_map _ _).trans hs2⟩
  · exact ⟨(isSome_map _ _).trans hs1, (isSome_map _ _).trans hs2⟩
  · exact ⟨(isSome_map _ _).trans hs1, (isSome_map _ _).trans hs2⟩
  · exact ⟨(isSome_map _ _).trans hs1, (isSome_map _ _).trans hs2⟩
  · intro d ok s' hseek
    unfold Sink.seek at hseek
    split at hseek
    · next hp =>
      simp only [Option.some.injEq] at hseek
      subst hseek
      exact ⟨hs1, hs2⟩
    · next p hp =>
      split at hseek
      · simp only [Option.some.injEq] at hseek
        subst hseek
        rw [hp] at hs1 hs2
        exact ⟨hs1, hs2⟩
      · simp at hseek
  · intro dec dev r s' hq
    cases dec with
    | none => simp [Sink.query_track] at hq
    | some src =>
      cases r with
      | RecreateStreamRequired =>
        obtain rfl := query_track_recreate_shape s src dev s' hq
        exact ⟨hs1, hs2⟩
      | Queued =>
        obtain ⟨s1, -, -, -, -, hpl, hmx, hsd, rfl⟩ :=
          query_track_queued_shape s src dev s' hq
        exact ⟨(isSome_map _ _).trans (hpl.trans hmx.symm),
               (isSome_map _ _).trans (hpl.trans hsd.symm)⟩

/-- C7 witness: the fresh session satisfies the pairing invariant, and so does the
session after `clear()`. -/
theorem operations_preserve_paired_witness :
    Sink.new.paired ∧ (Sink.new.clear).paired :=
  ⟨operations_preserve_paired.1,
   (operations_preserve_paired.2 Sink.new ⟨rfl, rfl⟩).1⟩


/-- C3 counterexample: from a fresh session, queue a duration-10 track and then a
duration-5 track at the same sample rate: both watcher tasks are now alive at once
(the claim allows at most one), and the first, superseded watcher still adds its
track's duration to the counter and still broadcasts when its track drains. -/
theorem multiple_watchers_alive_cex :
    sinkAB.watchers.length = 2 ∧
    (sinkAB.fire 0).duration_played = 10 ∧
    (sinkAB.fire 0).finished = [0] := by decide

/-- C3 amended: `query_track` replaces only the stored handle: every earlier watcher
task stays alive (a dropped tokio `JoinHandle` detaches its task), and an alive
watcher still adds its track's duration and broadcasts when it fires; `clear()`
aborts exactly the watcher whose handle is currently stored, and a watcher that is
not alive takes no step, so no duration update and no broadcast occurs for its
track. -/
theorem watcher_lifecycle (s : Sink) :
    (∀ src dev s',
        s.query_track (some src) dev = some (QueryTrackResult.Queued, s') →
        ∃ w : Watcher, w.id = s.next_id ∧
          s'.watchers = s.watchers ++ [w] ∧ s'.track_handle = some w.id) ∧
    (∀ id w, s.watchers.find? (fun w2 => w2.id == id) = some w →
        (s.fire id).duration_played = s.duration_played + w.trackDuration ∧
        (s.fire id).finished = s.finished ++ [id]) ∧
    (∀ id, s.track_handle = some id →
        (s.clear).watchers = s.watchers.filter (fun w => !(w.id == id))) ∧
    (∀ id, s.watchers.find? (fun w2 => w2.id == id) = none → s.fire id = s) := by
  refine ⟨?_, ?_, ?_, ?_⟩
  · intro src dev s' hq
    obtain ⟨s1, hw, hn, -, -, -, -, -, rfl⟩ := query_track_queued_shape s src dev s' hq
    exact ⟨{ id := s1.next_id, trackDuration := src.totalDuration.getD 0 },
           hn, by rw [hw], rfl⟩
  · intro id w hfind
    unfold Sink.fire
    rw [hfind]
    exact ⟨rfl, rfl⟩
  · intro id hth
    unfold Sink.clear Sink.clear_queue
    rw [hth]  -- hmm scrutinee
  · intro id hfind
    unfold Sink.fire
    rw [hfind]

/-- C3 amended witness: queuing the second track keeps the first watcher alive; the
second watcher fires with its duration 5; `clear()` on the two-track session aborts
the stored (second) watcher; and a fire step for a task that is not alive changes
nothing. -/
theorem watcher_lifecycle_witness :
    (∃ w : Watcher, w.id = sinkA.next_id ∧
        sinkAB.watchers = sinkA.watchers ++ [w] ∧
        sinkAB.track_handle = some w.id) ∧
    (sinkAB.fire 1).duration_played = sinkAB.duration_played + 5 ∧
    (sinkAB.clear).watchers = sinkAB.watchers.filter (fun w => !(w.id == 1)) ∧
    Sink.new.fire 0 = Sink.new :=
  ⟨(watcher_lifecycle sinkA).1 srcB true sinkAB (by decide),
   ((watcher_lifecycle sinkAB).2.1 1 { id := 1, trackDuration := 5 } (by decide)).1,
   (watcher_lifecycle sinkAB).2.2.1 1 (by decide),
   (watcher_lifecycle Sink.new).2.2.2 0 rfl⟩

/-- C10: a queued track whose decoder reports no determinable total duration is
recorded with track duration zero, so when its watcher fires the counter gains
nothing and `position()` is unchanged by the completion: it keeps counting across the
finished track's boundary instead of resetting to the start of the next track. -/
theorem unknown_duration_adds_zero (s : Sink) :
    (∀ (src : DecodedSource) (dev : Bool) (s' : Sink), src.totalDuration = none →
        s.query_track (some src) dev = some (QueryTrackResult.Queued, s') →
        s'.watchers.getLast? = some { id := s.next_id, trackDuration := 0 }) ∧
    (∀ id w, s.watchers.find? (fun w2 => w2.id == id) = some w →
        w.trackDuration = 0 →
        (s.fire id).duration_played = s.duration_played ∧
        (s.fire id).position = s.position) := by
  constructor
  · intro src dev s' hdur hq
    obtain ⟨s1, -, hn, -, -, -, -, -, rfl⟩ := query_track_queued_shape s src dev s' hq
    show (s1.watchers ++
      [({ id := s1.next_id, trackDuration := src.totalDuration.getD 0 } : Watcher)]).getLast? = _
    rw [List.getLast?_concat, hdur, hn]
    rfl
  · intro id w hfind hzero
    have hfire : s.fire id = { s with
        duration_played := s.duration_played + w.trackDuration,
        finished := s.finished ++ [id],
        watchers := s.watchers.filter (fun w2 => !(w2.id == id)) } := by
      unfold Sink.fire
      rw [hfind]
    rw [hfire, hzero]
    exact ⟨rfl, by simp [Sink.position]⟩

/-- C10 witness: queue the unknown-duration source on a fresh session: its watcher is
recorded with duration zero, and its completion leaves the counter and `position()`
unchanged. -/
theorem unknown_duration_adds_zero_witness :
    sinkU.watchers.getLast? = some { id := 0, trackDuration := 0 } ∧
    (sinkU.fire 0).duration_played = sinkU.duration_played ∧
    (sinkU.fire 0).position = sinkU.position :=
  ⟨(unknown_duration_adds_zero Sink.new).1 srcU true sinkU rfl (by decide),
   ((unknown_duration_adds_zero sinkU).2 0 { id := 0, trackDuration := 0 }
      (by decide) rfl).1,
   ((unknown_duration_adds_zero sinkU).2 0 { id := 0, trackDuration := 0 }
      (by decide) rfl).2⟩

end RodioTest



